import Mathlib

/-!
Verification of the UCloud cloud-provider plugin
(`pkg/cloudprovider/providers/ucloud`): a shallow embedding of the
request-signing layer (`ulb.go`) and of the load-balancer lifecycle
operations (`ucloud.go`), with theorems about the signing scheme, the
typed API client, and the provider adapter's lookup / update / delete
behaviour.

Machine integers are modelled as `Nat`/`Int` with explicit reduction
modulo `2^32` where Go's `uint32` arithmetic wraps (inside SHA-1).
Go's two-value `(result, error)` returns are modelled with explicit
sum/option types, and the HTTP boundary is an explicit environment
argument so that every operation is a pure, executable function.
-/

set_option maxRecDepth 200000

namespace UCloud

/-! ## SHA-1 (`crypto/sha1` as used by `Params.toQueryString`)

An executable SHA-1 over byte lists, with 32-bit words represented as
`Nat` reduced modulo `2^32`.  All recursion is structural so the kernel
can evaluate digests by `decide`. -/

/-- Truncate a natural number to a 32-bit word (Go `uint32` wrap-around). -/
def w32 (n : Nat) : Nat := n % 4294967296

/-- Rotate a 32-bit word left by `n` bits. -/
def rotl (n x : Nat) : Nat := w32 (x <<< n) ||| (x >>> (32 - n))

/-- UTF-8 encoding of a single character, as its list of bytes. -/
def utf8Char (c : Char) : List Nat :=
  let n := c.toNat
  if n < 128 then [n]
  else if n < 2048 then [192 ||| (n >>> 6), 128 ||| (n &&& 63)]
  else if n < 65536 then
    [224 ||| (n >>> 12), 128 ||| ((n >>> 6) &&& 63), 128 ||| (n &&& 63)]
  else
    [240 ||| (n >>> 18), 128 ||| ((n >>> 12) &&& 63),
     128 ||| ((n >>> 6) &&& 63), 128 ||| (n &&& 63)]

/-- The UTF-8 bytes of a string (a Go `string` is a byte slice holding
UTF-8 text). -/
def utf8Bytes (s : String) : List Nat := (s.data.map utf8Char).flatten

/-- Big-endian bytes of `n`, `k` bytes wide. -/
def beBytes (k n : Nat) : List Nat :=
  match k with
  | 0 => []
  | k + 1 => (n >>> (8 * k)) % 256 :: beBytes k (n % (2 ^ (8 * k)))

/-- SHA-1 message padding: append `0x80`, zeros up to 56 mod 64, then
the 64-bit big-endian bit length. -/
def sha1Pad (msg : List Nat) : List Nat :=
  let l := msg.length
  msg ++ 128 :: List.replicate ((119 - l % 64) % 64) 0 ++ beBytes 8 (8 * l)

/-- Group bytes four at a time into big-endian 32-bit words. -/
def toWords : List Nat → List Nat
  | a :: b :: c :: d :: rest => (((a * 256 + b) * 256 + c) * 256 + d) :: toWords rest
  | _ => []

/-- Extend 16 message words to 80 schedule words; `acc` holds the words
produced so far in reverse order and `fuel` counts the remaining steps. -/
def sha1Extend : Nat → List Nat → List Nat
  | 0, acc => acc.reverse
  | fuel + 1, acc =>
    let x := (acc.getD 2 0) ^^^ (acc.getD 7 0) ^^^ (acc.getD 13 0) ^^^ (acc.getD 15 0)
    sha1Extend fuel (rotl 1 x :: acc)

/-- One SHA-1 round; `i` is the round index and `wi` the schedule word. -/
def sha1Round (st : Nat × Nat × Nat × Nat × Nat) (iw : Nat × Nat) :
    Nat × Nat × Nat × Nat × Nat :=
  let (a, b, c, d, e) := st
  let (i, wi) := iw
  let f :=
    if i < 20 then (b &&& c) ||| ((4294967295 ^^^ b) &&& d)
    else if i < 40 then b ^^^ c ^^^ d
    else if i < 60 then (b &&& c) ||| (b &&& d) ||| (c &&& d)
    else b ^^^ c ^^^ d
  let k :=
    if i < 20 then 1518500249
    else if i < 40 then 1859775393
    else if i < 60 then 2400959708
    else 3395469782
  let temp := w32 (rotl 5 a + f + e + k + wi)
  (temp, a, rotl 30 b, c, d)

/-- Compress one 64-byte block into the running hash state. -/
def sha1Block (h : Nat × Nat × Nat × Nat × Nat) (block : List Nat) :
    Nat × Nat × Nat × Nat × Nat :=
  let w := sha1Extend 64 (toWords block).reverse
  let (h0, h1, h2, h3, h4) := h
  let (a, b, c, d, e) := ((List.range 80).zip w).foldl sha1Round (h0, h1, h2, h3, h4)
  (w32 (h0 + a), w32 (h1 + b), w32 (h2 + c), w32 (h3 + d), w32 (h4 + e))

/-- Fold `sha1Block` over successive 64-byte blocks; the structural
`fuel` argument bounds the number of blocks. -/
def sha1Blocks : Nat → List Nat → (Nat × Nat × Nat × Nat × Nat) →
    Nat × Nat × Nat × Nat × Nat
  | 0, _, h => h
  | fuel + 1, msg, h =>
    match msg with
    | [] => h
    | _ => sha1Blocks fuel (msg.drop 64) (sha1Block h (msg.take 64))

/-- Lowercase hexadecimal digit for `n < 16`. -/
def hexDigit (n : Nat) : Char :=
  if n < 10 then Char.ofNat (48 + n) else Char.ofNat (87 + n)

/-- Lowercase hexadecimal rendering of a 32-bit word, 8 digits wide. -/
def hex8 (n : Nat) : String :=
  String.mk ((List.range 8).map (fun i => hexDigit ((n >>> (28 - 4 * i)) &&& 15)))

/-- SHA-1 digest of a string, rendered as 40 lowercase hex digits.
This models `sha1.New(); io.WriteString(h, s); fmt.Sprintf("%x", h.Sum(nil))`
in `Params.toQueryString` (ulb.go, lines 45-47). -/
def sha1Hex (s : String) : String :=
  let msg := sha1Pad (utf8Bytes s)
  let (h0, h1, h2, h3, h4) :=
    sha1Blocks (msg.length / 64 + 1) msg
      (1732584193, 4023233417, 2562383102, 271733878, 3285377520)
  hex8 h0 ++ hex8 h1 ++ hex8 h2 ++ hex8 h3 ++ hex8 h4

/-- Known-answer test for the SHA-1 embedding (FIPS 180 test vector). -/
theorem sha1Hex_abc : sha1Hex "abc" = "a9993e364706816aba3e25717850c26c9cd0d89d" := by
  decide

/-- Known-answer test for the SHA-1 embedding (empty message). -/
theorem sha1Hex_empty : sha1Hex "" = "da39a3ee5e6b4b0d3255bfef95601890afd80709" := by
  decide

/-! ## Go string ordering and `url.Values` encoding -/

/-- Lexicographic `≤` on byte lists (ascending, byte-wise). -/
def bytesLe : List Nat → List Nat → Bool
  | [], _ => true
  | _ :: _, [] => false
  | a :: as, b :: bs => if a < b then true else if b < a then false else bytesLe as bs

/-- Go's `<=` on strings: byte-wise lexicographic order on UTF-8 bytes
(the order `sort.Strings` sorts by). -/
def goStrLe (s t : String) : Bool := bytesLe (utf8Bytes s) (utf8Bytes t)

/-- Insert a string into an already ascending list, keeping it ascending. -/
def insertSorted (k : String) : List String → List String
  | [] => [k]
  | x :: xs => if goStrLe k x then k :: x :: xs else x :: insertSorted k xs

/-- Sort a list of strings into ascending byte-wise lexicographic order;
models `sort.Strings(keys)` (ulb.go, line 36). -/
def sortStrings : List String → List String
  | [] => []
  | x :: xs => insertSorted x (sortStrings xs)

/-- Whether a byte stays unescaped under Go's `url.QueryEscape`:
alphanumerics and `-`, `_`, `.`, `~`. -/
def isUnreservedByte (b : Nat) : Bool :=
  (65 ≤ b && b ≤ 90) || (97 ≤ b && b ≤ 122) || (48 ≤ b && b ≤ 57) ||
  b == 45 || b == 95 || b == 46 || b == 126

/-- Uppercase hexadecimal digit for `n < 16` (used by `%XX` escapes). -/
def hexDigitUpper (n : Nat) : Char :=
  if n < 10 then Char.ofNat (48 + n) else Char.ofNat (55 + n)

/-- Escape one byte the way Go's query escaping does: unreserved bytes
stand for themselves, a space becomes `+`, anything else `%XX`. -/
def queryEscapeByte (b : Nat) : List Char :=
  if isUnreservedByte b then [Char.ofNat b]
  else if b == 32 then ['+']
  else ['%', hexDigitUpper (b >>> 4), hexDigitUpper (b &&& 15)]

/-- Go's `url.QueryEscape`, applied byte-wise to the UTF-8 bytes. -/
def queryEscape (s : String) : String :=
  String.mk ((utf8Bytes s).map queryEscapeByte).flatten

/-- `url.Values{k: [v]}.Encode()`: one `key=value` pair, both escaped
(ulb.go, lines 53-55 and 57-59 build one-entry `url.Values`). -/
def encodePair (k v : String) : String := queryEscape k ++ "=" ++ queryEscape v

/-! ## `Params` and `toQueryString` (ulb.go, lines 26-73) -/

/-- `type Params map[string]string`.  A Go map has unique keys; the map
is modelled as an association list, and theorems that need map semantics
assume the key list is duplicate-free. -/
abbrev Params := List (String × String)

/-- Go map read `p[k]`: the value stored at `k`, or the zero value `""`
when the key is absent. -/
def getP (p : Params) (k : String) : String := (List.lookup k p).getD ""

/-- The keys the first loop of `toQueryString` collects (skipping fields
whose value is the empty string) and then sorts (ulb.go, lines 29-36). -/
def includedKeys (p : Params) : List String :=
  sortStrings ((p.filter (fun kv => kv.2 != "")).map (fun kv => kv.1))

/-- The signing concatenation loop (ulb.go, lines 37-43): walk the sorted
keys, skip `PrivateKey` and `Signature`, and append `k + p[k]` for the
rest.  The loop accumulates left-to-right; this recursion produces the
same string by associativity of `++`. -/
def signPayload (p : Params) : List String → String
  | [] => ""
  | k :: ks =>
    (if k == "PrivateKey" || k == "Signature" then "" else k ++ getP p k) ++
      signPayload p ks

/-- The exact string handed to SHA-1 (ulb.go, lines 37-44): the signing
concatenation followed by the raw `PrivateKey` value. -/
def signInput (p : Params) : String :=
  signPayload p (includedKeys p) ++ getP p "PrivateKey"

/-- The signature: lowercase-hex SHA-1 of `signInput` (ulb.go, lines 45-47). -/
def signatureOf (p : Params) : String := sha1Hex (signInput p)

/-- The query-string loop (ulb.go, lines 48-56): walk the sorted keys,
skip `PrivateKey` and `Signature`, and append `&` plus the encoded pair. -/
def qsPayload (p : Params) : List String → String
  | [] => ""
  | k :: ks =>
    (if k == "PrivateKey" || k == "Signature" then ""
     else "&" ++ encodePair k (getP p k)) ++ qsPayload p ks

/-- `Params.toQueryString` (ulb.go, lines 28-61): the encoded pairs in
sorted key order followed by the final `Signature` pair. -/
def Params.toQueryString (p : Params) : String :=
  qsPayload p (includedKeys p) ++ "&" ++ encodePair "Signature" (signatureOf p)

/-- Go's `fmt.Sprintf("%v", value)` on an `int` field: decimal text with
a leading minus sign for negatives (`toParams`, ulb.go, line 70). -/
def goIntStr (i : Int) : String := toString i

/-! ## Typed parameter records (ulb.go)

Each Go parameter struct becomes a structure whose fields default to the
Go zero values, so that Lean structure literals match Go composite
literals that omit fields.  `toParams` (ulb.go, lines 63-73) reflects
over the struct fields in declaration order and stores
`fmt.Sprintf("%v", value)` under each field's `json` tag; here it is
spelled out per record. -/

/-- `DescribeULBParam` (ulb.go, lines 147-157). -/
structure DescribeULBParam where
  Action : String := ""
  PublicKey : String := ""
  PrivateKey : String := ""
  Signature : String := ""
  ProjectID : String := ""
  Region : String := ""
  Offset : Int := 0
  Limit : Int := 0
  ULBID : String := ""
deriving DecidableEq

/-- `toParams` on a `DescribeULBParam`: field tags in declaration order. -/
def DescribeULBParam.toParams (p : DescribeULBParam) : Params :=
  [("Action", p.Action), ("PublicKey", p.PublicKey), ("PrivateKey", p.PrivateKey),
   ("Signature", p.Signature), ("ProjectId", p.ProjectID), ("Region", p.Region),
   ("Offset", goIntStr p.Offset), ("Limit", goIntStr p.Limit), ("ULBId", p.ULBID)]

/-- `DescribeULBParam.setKey` (ulb.go, lines 159-163). -/
def DescribeULBParam.setKey (p : DescribeULBParam) (pubKey privKey : String) :
    DescribeULBParam :=
  { p with Action := "DescribeULB", PublicKey := pubKey, PrivateKey := privKey }

/-- `DescribeULBParam.QueryString` (ulb.go, lines 165-168). -/
def DescribeULBParam.QueryString (p : DescribeULBParam) : String :=
  (p.toParams).toQueryString

/-- `DescribeUHostInstanceParam` (ulb.go, lines 75-87). -/
structure DescribeUHostInstanceParam where
  Action : String := ""
  PublicKey : String := ""
  PrivateKey : String := ""
  Signature : String := ""
  ProjectID : String := ""
  Region : String := ""
  Zone : String := ""
  UHostIDsN : String := ""
  Tag : String := ""
  Offset : Int := 0
  Limit : Int := 0
deriving DecidableEq

/-- `toParams` on a `DescribeUHostInstanceParam` (tags include the
lowercase `zone`, `tag`, `offset`, `limit` and `UHostIds.n`). -/
def DescribeUHostInstanceParam.toParams (p : DescribeUHostInstanceParam) : Params :=
  [("Action", p.Action), ("PublicKey", p.PublicKey), ("PrivateKey", p.PrivateKey),
   ("Signature", p.Signature), ("ProjectId", p.ProjectID), ("Region", p.Region),
   ("zone", p.Zone), ("UHostIds.n", p.UHostIDsN), ("tag", p.Tag),
   ("offset", goIntStr p.Offset), ("limit", goIntStr p.Limit)]

/-- `DescribeUHostInstanceParam.setKey` (ulb.go, lines 136-140). -/
def DescribeUHostInstanceParam.setKey (p : DescribeUHostInstanceParam)
    (pubKey privKey : String) : DescribeUHostInstanceParam :=
  { p with Action := "DescribeUHostInstance", PublicKey := pubKey, PrivateKey := privKey }

/-- `DescribeUHostInstanceParam.QueryString` (ulb.go, lines 142-145). -/
def DescribeUHostInstanceParam.QueryString (p : DescribeUHostInstanceParam) : String :=
  (p.toParams).toQueryString

/-- `DeleteULBParam` (ulb.go, lines 270-278). -/
structure DeleteULBParam where
  Action : String := ""
  PublicKey : String := ""
  PrivateKey : String := ""
  Signature : String := ""
  ProjectID : String := ""
  Region : String := ""
  ULBID : String := ""
deriving DecidableEq

/-- `toParams` on a `DeleteULBParam`. -/
def DeleteULBParam.toParams (p : DeleteULBParam) : Params :=
  [("Action", p.Action), ("PublicKey", p.PublicKey), ("PrivateKey", p.PrivateKey),
   ("Signature", p.Signature), ("ProjectId", p.ProjectID), ("Region", p.Region),
   ("ULBId", p.ULBID)]

/-- `DeleteULBParam.setKey` (ulb.go, lines 280-284). -/
def DeleteULBParam.setKey (p : DeleteULBParam) (pubKey privKey : String) :
    DeleteULBParam :=
  { p with Action := "DeleteULB", PublicKey := pubKey, PrivateKey := privKey }

/-- `DeleteULBParam.QueryString` (ulb.go, lines 286-289). -/
def DeleteULBParam.QueryString (p : DeleteULBParam) : String :=
  (p.toParams).toQueryString

/-- `AllocateBackendParam` (ulb.go, lines 407-420). -/
structure AllocateBackendParam where
  Action : String := ""
  PublicKey : String := ""
  PrivateKey : String := ""
  Signature : String := ""
  ProjectID : String := ""
  Region : String := ""
  ULBID : String := ""
  VServerID : String := ""
  ResourceType : String := ""
  ResourceID : String := ""
  Port : Int := 0
  Enabled : Int := 0
deriving DecidableEq

/-- `toParams` on an `AllocateBackendParam`. -/
def AllocateBackendParam.toParams (p : AllocateBackendParam) : Params :=
  [("Action", p.Action), ("PublicKey", p.PublicKey), ("PrivateKey", p.PrivateKey),
   ("Signature", p.Signature), ("ProjectId", p.ProjectID), ("Region", p.Region),
   ("ULBId", p.ULBID), ("VServerId", p.VServerID), ("ResourceType", p.ResourceType),
   ("ResourceId", p.ResourceID), ("Port", goIntStr p.Port), ("Enabled", goIntStr p.Enabled)]

/-- `AllocateBackendParam.setKey` (ulb.go, lines 422-426). -/
def AllocateBackendParam.setKey (p : AllocateBackendParam) (pubKey privKey : String) :
    AllocateBackendParam :=
  { p with Action := "AllocateBackend", PublicKey := pubKey, PrivateKey := privKey }

/-- `AllocateBackendParam.QueryString` (ulb.go, lines 428-431). -/
def AllocateBackendParam.QueryString (p : AllocateBackendParam) : String :=
  (p.toParams).toQueryString

/-- `ReleaseBackendParam` (ulb.go, lines 464-473). -/
structure ReleaseBackendParam where
  Action : String := ""
  PublicKey : String := ""
  PrivateKey : String := ""
  Signature : String := ""
  ProjectID : String := ""
  Region : String := ""
  ULBID : String := ""
  BackendID : String := ""
deriving DecidableEq

/-- `ReleaseEIPParam` (ulb.go, lines 532-539). -/
structure ReleaseEIPParam where
  Action : String := ""
  PublicKey : String := ""
  PrivateKey : String := ""
  Signature : String := ""
  Region : String := ""
  EIPID : String := ""
deriving DecidableEq

/-! ## Response records (ulb.go) -/

/-- `ReturnStatus` (ulb.go, lines 20-24). -/
structure ReturnStatus where
  RetCode : Int := 0
  Action : String := ""
  Message : String := ""
deriving DecidableEq

/-- `ULBIPSet` (ulb.go, lines 186-190). -/
structure ULBIPSet where
  OperatorName : String := ""
  EIP : String := ""
  EIPID : String := ""
deriving DecidableEq

/-- `SSLBindedTargetSet` (ulb.go, lines 215-220). -/
structure SSLBindedTargetSet where
  VServerID : String := ""
  VServerName : String := ""
  ULBID : String := ""
  ULBName : String := ""
deriving DecidableEq

/-- `ULBSSLSet` (ulb.go, lines 206-213). -/
structure ULBSSLSet where
  SSLID : String := ""
  SSLName : String := ""
  SSLType : String := ""
  SSLContent : String := ""
  CreateTime : Int := 0
  SSLBindedTargetSet : List SSLBindedTargetSet := []
deriving DecidableEq

/-- `ULBBackendSet` (ulb.go, lines 222-231). -/
structure ULBBackendSet where
  BackendID : String := ""
  ResourceType : String := ""
  ResourceID : String := ""
  ResourceName : String := ""
  PrivateIP : String := ""
  Port : Int := 0
  Enabled : Int := 0
  Status : Int := 0
deriving DecidableEq

/-- `ULBVServerSet` (ulb.go, lines 192-204); its `VServerSet` field holds
the backend bindings. -/
structure ULBVServerSet where
  VserverID : String := ""
  VServerName : String := ""
  Protocol : String := ""
  FrontendPort : Int := 0
  Method : String := ""
  PersistenceType : String := ""
  PersistenceInfo : String := ""
  ClientTimeout : Int := 0
  Status : Int := 0
  SSLSet : List ULBSSLSet := []
  VServerSet : List ULBBackendSet := []
deriving DecidableEq

/-- `ULBSet` (ulb.go, lines 170-184). -/
structure ULBSet where
  ULBID : String := ""
  ULBName : String := ""
  Name : String := ""
  Tag : String := ""
  Remark : String := ""
  BandwidthType : Int := 0
  Bandwidth : Int := 0
  CreateTime : Int := 0
  ExpireTime : Int := 0
  IPSet : List ULBIPSet := []
  VServerSet : List ULBVServerSet := []
  ULBType : String := ""
deriving DecidableEq

/-- `DescribeULBResponse` (ulb.go, lines 233-237); embeds `ReturnStatus`. -/
structure DescribeULBResponse extends ReturnStatus where
  TotalCount : Int := 0
  DataSet : List ULBSet := []
deriving DecidableEq

/-- `DeleteULBResponse` (ulb.go, line 291) is `ReturnStatus`. -/
abbrev DeleteULBResponse := ReturnStatus

/-- `AllocateBackendResponse` (ulb.go, lines 433-436). -/
structure AllocateBackendResponse extends ReturnStatus where
  BackendID : String := ""
deriving DecidableEq

/-- `ReleaseBackendResponse` (ulb.go, line 486) is `ReturnStatus`. -/
abbrev ReleaseBackendResponse := ReturnStatus

/-- `ReleaseEIPResponse` (ulb.go, line 541) is `ReturnStatus`. -/
abbrev ReleaseEIPResponse := ReturnStatus

/-- `UHostIPSet` (ulb.go, lines 121-126). -/
structure UHostIPSet where
  «Type» : String := ""
  IPID : String := ""
  IP : String := ""
  Bandwidth : Int := 0
deriving DecidableEq

/-- `UHostDiskSet` (ulb.go, lines 128-134). -/
structure UHostDiskSet where
  «Type» : String := ""
  DiskID : String := ""
  Name : String := ""
  Drive : String := ""
  Size : Int := 0
deriving DecidableEq

/-- `UHostInstanceSet` (ulb.go, lines 95-119). -/
structure UHostInstanceSet where
  UHostID : String := ""
  UHostType : String := ""
  Zone : String := ""
  StorageType : String := ""
  ImageID : String := ""
  BasicImageID : String := ""
  BasicImageName : String := ""
  Tag : String := ""
  Remark : String := ""
  Name : String := ""
  State : String := ""
  CreateTime : Int := 0
  ChargeType : String := ""
  ExpireTime : Int := 0
  CPU : Int := 0
  Memory : Int := 0
  AutoRenew : String := ""
  DiskSet : List UHostDiskSet := []
  IPSet : List UHostIPSet := []
  NetCapability : String := ""
  NetworkState : String := ""
  TimemachineFeature : String := ""
  HotplugFeature : Bool := false
deriving DecidableEq

/-- `DescribeUHostInstanceResponse` (ulb.go, lines 89-93). -/
structure DescribeUHostInstanceResponse extends ReturnStatus where
  TotalCount : Int := 0
  UHostSet : List UHostInstanceSet := []
deriving DecidableEq

/-! ## `UClient` and the HTTP boundary (ulb.go, lines 602-813)

Each client method does `http.Get` on the signed URL and then JSON-decodes
the body.  The outcome of one GET-plus-decode is modelled as a value of
`HTTPResult`: a transport-level failure (Go: `http.Get` returns
`(nil, err)`), a decode failure (Go: `Decode` returns an error but the
response pointer is non-nil and partially filled), or a decoded response. -/

/-- Possible outcomes of one `http.Get` plus JSON decode. -/
inductive HTTPResult (ρ : Type) where
  | transportErr (e : String)
  | decodeErr (e : String) (r : ρ)
  | ok (r : ρ)
deriving DecidableEq

/-- The Go error channel as the callers in ucloud.go observe it.
`ulbNotFound` is the sentinel `ULBNotFound = errors.New("ulb not found")`
(ucloud.go, line 21), compared by identity with `err == ULBNotFound`;
`message m` is `errors.New(m)` built from a response's `Message` field
or another literal. -/
inductive GoError where
  | transport (e : String)
  | decode (e : String)
  | message (m : String)
  | ulbNotFound
deriving DecidableEq

/-- `UClient` (ulb.go, lines 602-606). -/
structure UClient where
  BaseURL : String := ""
  PublicKey : String := ""
  PrivateKey : String := ""
deriving DecidableEq

/-- `UClient.GetQueryURL` (ulb.go, lines 616-618), taking the parameter's
already-built query string. -/
def UClient.GetQueryURL (c : UClient) (queryString : String) : String :=
  c.BaseURL ++ "/?" ++ queryString

/-- `UClient.DescribeULB` (ulb.go, lines 620-631): inject the stored
credentials with `setKey`, GET the signed URL once, and return the Go
`(resp, err)` pair unchanged; the second component lists the URLs
requested (exactly one, never retried). -/
def UClient.DescribeULB (c : UClient)
    (henv : String → HTTPResult DescribeULBResponse) (p : DescribeULBParam) :
    (Option DescribeULBResponse × Option GoError) × List String :=
  let p := p.setKey c.PublicKey c.PrivateKey
  let url := c.GetQueryURL p.QueryString
  match henv url with
  | .transportErr e => ((none, some (.transport e)), [url])
  | .decodeErr e r => ((some r, some (.decode e)), [url])
  | .ok r => ((some r, none), [url])

/-- `UClient.AllocateBackend` (ulb.go, lines 711-722), modelled exactly
like `UClient.DescribeULB`. -/
def UClient.AllocateBackend (c : UClient)
    (henv : String → HTTPResult AllocateBackendResponse) (p : AllocateBackendParam) :
    (Option AllocateBackendResponse × Option GoError) × List String :=
  let p := p.setKey c.PublicKey c.PrivateKey
  let url := c.GetQueryURL p.QueryString
  match henv url with
  | .transportErr e => ((none, some (.transport e)), [url])
  | .decodeErr e r => ((some r, some (.decode e)), [url])
  | .ok r => ((some r, none), [url])

/-! ## The provider adapter (ucloud.go)

The `Cloud` methods call the `UClient` methods; in the model that
boundary is an explicit environment (`ClientEnv`) giving, for each typed
operation, the outcome of the underlying GET-plus-decode for the
parameter record the adapter built.  (The `UClient` theorems below show
these three shapes are exactly what the client layer can return.)  Each
adapter operation also returns the trace of client calls it issued. -/

/-- The outcome each `UClient` method yields for a given parameter
record, at the `Cloud`-to-`UClient` boundary. -/
structure ClientEnv where
  describeULB : DescribeULBParam → HTTPResult DescribeULBResponse := fun _ => .transportErr ""
  deleteULB : DeleteULBParam → HTTPResult DeleteULBResponse := fun _ => .transportErr ""
  releaseEIP : ReleaseEIPParam → HTTPResult ReleaseEIPResponse := fun _ => .transportErr ""
  describeUHostInstance : DescribeUHostInstanceParam → HTTPResult DescribeUHostInstanceResponse := fun _ => .transportErr ""
  allocateBackend : AllocateBackendParam → HTTPResult AllocateBackendResponse := fun _ => .transportErr ""
  releaseBackend : ReleaseBackendParam → HTTPResult ReleaseBackendResponse := fun _ => .transportErr ""

/-- One client call issued by the adapter, recorded with the parameter
record the adapter built for it. -/
inductive CloudCall where
  | describeULB (p : DescribeULBParam)
  | deleteULB (p : DeleteULBParam)
  | releaseEIP (p : ReleaseEIPParam)
  | describeUHostInstance (p : DescribeUHostInstanceParam)
  | allocateBackend (p : AllocateBackendParam)
  | releaseBackend (p : ReleaseBackendParam)
deriving DecidableEq

/-- `Cloud` (ucloud.go, lines 36-43); it embeds `UClient`. -/
structure Cloud extends UClient where
  Region : String := ""
  Zone : String := ""
  ProjectID : String := ""
deriving DecidableEq

/-- The `DescribeULBParam` literal built by `describeLoadBalancer`
(ucloud.go, lines 155-159): only `Region`, `ProjectID` and `Limit: 100`
are set, everything else is a Go zero value. -/
def describeULBParamOf (c : Cloud) : DescribeULBParam :=
  { Region := c.Region, ProjectID := c.ProjectID, Limit := 100 }

/-- `Cloud.describeLoadBalancer` (ucloud.go, lines 154-174): list the
load balancers, then linear-scan for a `Name` match.  A client error is
propagated; a non-zero `RetCode` or a missing name both yield the
`ULBNotFound` sentinel. -/
def Cloud.describeLoadBalancer (c : Cloud) (env : ClientEnv) (name : String) :
    Except GoError ULBSet × List CloudCall :=
  let p := describeULBParamOf c
  let trace := [CloudCall.describeULB p]
  match env.describeULB p with
  | .transportErr e => (.error (.transport e), trace)
  | .decodeErr e _ => (.error (.decode e), trace)
  | .ok resp =>
    if resp.RetCode != 0 then (.error .ulbNotFound, trace)
    else
      match resp.DataSet.find? (fun lb => lb.Name == name) with
      | some lb => (.ok lb, trace)
      | none => (.error .ulbNotFound, trace)

/-- How `Cloud.deleteLoadBalancer` can end: a normal Go `return` carrying
an error value (always `nil` in the code), or a runtime panic from
dereferencing a nil pointer (`ulbSet.ULBID` when the lookup failed with a
non-`ULBNotFound` error, or `r.RetCode` when `DeleteULB` failed at
transport level and returned `r = nil`). -/
inductive DeleteOutcome where
  | ret (e : Option GoError)
  | nilPanic
deriving DecidableEq

/-- `Cloud.deleteLoadBalancer` (ucloud.go, lines 267-300): treat
`ULBNotFound` as success; delete the ULB, logging (not propagating) a
delete error or non-zero `RetCode`; then release every associated EIP,
logging any failure and continuing. -/
def Cloud.deleteLoadBalancer (c : Cloud) (env : ClientEnv) (name : String) :
    DeleteOutcome × List CloudCall :=
  match c.describeLoadBalancer env name with
  | (.error .ulbNotFound, tr) => (.ret none, tr)
  | (.error _, tr) => (.nilPanic, tr)
  | (.ok ulbSet, tr) =>
    let p : DeleteULBParam :=
      { Region := c.Region, ProjectID := c.ProjectID, ULBID := ulbSet.ULBID }
    let tr := tr ++ [CloudCall.deleteULB p]
    let eipCalls := ulbSet.IPSet.map (fun ipSet =>
      CloudCall.releaseEIP { Region := c.Region, EIPID := ipSet.EIPID })
    match env.deleteULB p with
    | .transportErr _ => (.nilPanic, tr)
    | .decodeErr _ _ => (.ret none, tr ++ eipCalls)
    | .ok _ => (.ret none, tr ++ eipCalls)

/-- `Cloud.EnsureLoadBalancerDeleted` (ucloud.go, lines 454-458).
Modelled from the spec: `cloudprovider.GetLoadBalancerName` lives outside
src/, so the deterministic name it derives from the service is taken as
the abstract input `loadBalancerName`. -/
def Cloud.EnsureLoadBalancerDeleted (c : Cloud) (env : ClientEnv)
    (loadBalancerName : String) : DeleteOutcome × List CloudCall :=
  c.deleteLoadBalancer env loadBalancerName

/-- The `DescribeUHostInstanceParam` literal built by `getUHostIDs`
(ucloud.go, lines 357-361). -/
def describeUHostParamOf (c : Cloud) : DescribeUHostInstanceParam :=
  { Region := c.Region, ProjectID := c.ProjectID, Limit := 100 }

/-- `Cloud.getUHostIDs` (ucloud.go, lines 355-381): list compute
instances and collect `UHostID` once per interface IP that appears in
`nodeNames`. -/
def Cloud.getUHostIDs (c : Cloud) (env : ClientEnv) (nodeNames : List String) :
    Except GoError (List String) × List CloudCall :=
  let p := describeUHostParamOf c
  let trace := [CloudCall.describeUHostInstance p]
  match env.describeUHostInstance p with
  | .transportErr e => (.error (.transport e), trace)
  | .decodeErr e _ => (.error (.decode e), trace)
  | .ok r =>
    if r.RetCode != 0 then (.error (.message r.Message), trace)
    else
      let ids := r.UHostSet.flatMap (fun host =>
        (host.IPSet.filter (fun ip => nodeNames.contains ip.IP)).map
          (fun _ => host.UHostID))
      (.ok ids, trace)

/-- Modelled from the spec: `api.Service` lives outside src/; only the
port list that `UpdateLoadBalancer` reads (`service.Spec.Ports`, each
with its `Port`) is modelled. -/
structure ServicePort where
  Port : Int := 0
deriving DecidableEq

/-- Modelled from the spec: the service as seen by `UpdateLoadBalancer`. -/
structure Service where
  Ports : List ServicePort := []
deriving DecidableEq

/-- Insertion into a Go `map[string]bool` used as a set (`m1[host] =
true`): a duplicate insert leaves the map unchanged.  The list order is
one fixed iteration order for the map. -/
def setInsert (m : List String) (k : String) : List String :=
  if m.contains k then m else m ++ [k]

/-- The set `m1` built from `uHostIDs` (ucloud.go, lines 400-404). -/
def setOfList (l : List String) : List String := l.foldl setInsert []

/-- Insertion into a Go `map[string]string` (`m2[rid] = bid`): a later
insert with the same key overwrites the stored value. -/
def mapInsert (m : List (String × String)) (k v : String) : List (String × String) :=
  if m.any (fun kv => kv.1 == k) then
    m.map (fun kv => if kv.1 == k then (k, v) else kv)
  else m ++ [(k, v)]

/-- The map `m2` from `ResourceID` to `BackendID` built from the bound
backends (ucloud.go, lines 405-407). -/
def mapOfBackends (bs : List ULBBackendSet) : List (String × String) :=
  bs.foldl (fun m b => mapInsert m b.ResourceID b.BackendID) []

/-- How `Cloud.UpdateLoadBalancer` can end: a normal Go `return` with an
error value, or the index-out-of-range panic of `ulbSet.VServerSet[0]`
(ucloud.go, line 399) when the ULB has no virtual server. -/
inductive UpdateOutcome where
  | ret (e : Option GoError)
  | indexPanic
deriving DecidableEq

/-- The release loop of `UpdateLoadBalancer` (ucloud.go, lines 409-427):
for each bound backend whose `ResourceID` is not in `m1`, call
`ReleaseBackend`; stop at the first error or non-zero `RetCode`. -/
def releaseLoop (c : Cloud) (env : ClientEnv) (ulbID : String) (m1 : List String) :
    List (String × String) → Option GoError × List CloudCall
  | [] => (none, [])
  | (host, backendID) :: rest =>
    if m1.contains host then releaseLoop c env ulbID m1 rest
    else
      let p : ReleaseBackendParam :=
        { Region := c.Region, ProjectID := c.ProjectID, ULBID := ulbID,
          BackendID := backendID }
      match env.releaseBackend p with
      | .transportErr e => (some (.transport e), [CloudCall.releaseBackend p])
      | .decodeErr e _ => (some (.decode e), [CloudCall.releaseBackend p])
      | .ok r =>
        if r.RetCode != 0 then (some (.message r.Message), [CloudCall.releaseBackend p])
        else
          let (e, tr) := releaseLoop c env ulbID m1 rest
          (e, CloudCall.releaseBackend p :: tr)

/-- The allocate loop of `UpdateLoadBalancer` (ucloud.go, lines 428-450):
for each desired host not in `m2`, call `AllocateBackend`; stop at the
first error or non-zero `RetCode`. -/
def allocLoop (c : Cloud) (env : ClientEnv) (ulbID vserverID : String) (port : Int)
    (m2 : List (String × String)) : List String → Option GoError × List CloudCall
  | [] => (none, [])
  | host :: rest =>
    if m2.any (fun kv => kv.1 == host) then allocLoop c env ulbID vserverID port m2 rest
    else
      let p : AllocateBackendParam :=
        { Region := c.Region, ProjectID := c.ProjectID, ULBID := ulbID,
          VServerID := vserverID, ResourceType := "UHost", ResourceID := host,
          Port := port, Enabled := 1 }
      match env.allocateBackend p with
      | .transportErr e => (some (.transport e), [CloudCall.allocateBackend p])
      | .decodeErr e _ => (some (.decode e), [CloudCall.allocateBackend p])
      | .ok r =>
        if r.RetCode != 0 then (some (.message r.Message), [CloudCall.allocateBackend p])
        else
          let (e, tr) := allocLoop c env ulbID vserverID port m2 rest
          (e, CloudCall.allocateBackend p :: tr)

/-- `Cloud.UpdateLoadBalancer` (ucloud.go, lines 383-452): look up the
load balancer, resolve the desired nodes to host IDs, then release the
bindings whose resource is no longer desired and allocate the newly
desired ones.  The load-balancer name derived by
`cloudprovider.GetLoadBalancerName` (outside src/) is the abstract input
`loadBalancerName`. -/
def Cloud.UpdateLoadBalancer (c : Cloud) (env : ClientEnv) (loadBalancerName : String)
    (service : Service) (nodeNames : List String) : UpdateOutcome × List CloudCall :=
  match c.describeLoadBalancer env loadBalancerName with
  | (.error e, tr) => (.ret (some e), tr)
  | (.ok ulbSet, tr) =>
    match service.Ports with
    | [] => (.ret (some (.message "no port found for serivce")), tr)
    | sp :: _ =>
      let port := sp.Port
      match c.getUHostIDs env nodeNames with
      | (.error e, tr2) => (.ret (some e), tr ++ tr2)
      | (.ok uHostIDs, tr2) =>
        let ulbID := ulbSet.ULBID
        match ulbSet.VServerSet with
        | [] => (.indexPanic, tr ++ tr2)
        | vs0 :: _ =>
          let vserverID := vs0.VserverID
          let m1 := setOfList uHostIDs
          let m2 := mapOfBackends vs0.VServerSet
          let (e1, tr3) := releaseLoop c env ulbID m1 m2
          match e1 with
          | some e => (.ret (some e), tr ++ tr2 ++ tr3)
          | none =>
            let (e2, tr4) := allocLoop c env ulbID vserverID port m2 m1
            (.ret e2, tr ++ tr2 ++ tr3 ++ tr4)

/-! ## Sorting, lookup and concatenation toolkit -/

/-- Concatenation of a list of strings. -/
def strConcat : List String → String
  | [] => ""
  | s :: rest => s ++ strConcat rest

theorem strConcat_append (l1 l2 : List String) :
    strConcat (l1 ++ l2) = strConcat l1 ++ strConcat l2 := by
  induction l1 with
  | nil => rfl
  | cons s rest ih =>
    show s ++ strConcat (rest ++ l2) = (s ++ strConcat rest) ++ strConcat l2
    rw [ih, String.append_assoc]

/-- If `a` is in `l`, the concatenation over `l.map f` splits around `f a`. -/
theorem strConcat_split {a : α} {l : List α} (f : α → String) (h : a ∈ l) :
    ∃ s1 s2, strConcat (l.map f) = s1 ++ (f a ++ s2) := by
  obtain ⟨l1, l2, rfl⟩ := List.append_of_mem h
  refine ⟨strConcat (l1.map f), strConcat (l2.map f), ?_⟩
  simp only [List.map_append, List.map_cons, strConcat_append, strConcat, String.append_assoc]

theorem insertSorted_perm (k : String) (l : List String) :
    (insertSorted k l).Perm (k :: l) := by
  induction l with
  | nil => exact .refl _
  | cons x xs ih =>
    unfold insertSorted
    split
    · exact .refl _
    · exact .trans (.cons x ih) (.swap k x xs)

theorem sortStrings_perm (l : List String) : (sortStrings l).Perm l := by
  induction l with
  | nil => exact .refl _
  | cons x xs ih => exact .trans (insertSorted_perm x (sortStrings xs)) (.cons x ih)

theorem mem_sortStrings {k : String} {l : List String} : k ∈ sortStrings l ↔ k ∈ l :=
  (sortStrings_perm l).mem_iff

/-- Insertion sort on key/value pairs, ordered by key; used only by the
spec-side description of the signed payload. -/
def insertPairSorted (kv : String × String) :
    List (String × String) → List (String × String)
  | [] => [kv]
  | x :: xs => if goStrLe kv.1 x.1 then kv :: x :: xs else x :: insertPairSorted kv xs

/-- Sort key/value pairs by key, ascending. -/
def sortPairs : List (String × String) → List (String × String)
  | [] => []
  | x :: xs => insertPairSorted x (sortPairs xs)

theorem insertPairSorted_perm (kv : String × String) (l : List (String × String)) :
    (insertPairSorted kv l).Perm (kv :: l) := by
  induction l with
  | nil => exact .refl _
  | cons x xs ih =>
    unfold insertPairSorted
    split
    · exact .refl _
    · exact .trans (.cons x ih) (.swap kv x xs)

theorem sortPairs_perm (l : List (String × String)) : (sortPairs l).Perm l := by
  induction l with
  | nil => exact .refl _
  | cons x xs ih => exact .trans (insertPairSorted_perm x (sortPairs xs)) (.cons x ih)

theorem map_fst_insertPairSorted (kv : String × String) (l : List (String × String)) :
    (insertPairSorted kv l).map Prod.fst = insertSorted kv.1 (l.map Prod.fst) := by
  induction l with
  | nil => rfl
  | cons x xs ih =>
    unfold insertPairSorted insertSorted
    by_cases h : goStrLe kv.1 x.1
    · simp [h]
    · simp [h, ih]

theorem map_fst_sortPairs (l : List (String × String)) :
    (sortPairs l).map Prod.fst = sortStrings (l.map Prod.fst) := by
  induction l with
  | nil => rfl
  | cons x xs ih =>
    simp only [sortPairs, sortStrings, List.map_cons, map_fst_insertPairSorted, ih]

theorem getP_eq_of_mem {p : Params} {k v : String}
    (hnd : (p.map Prod.fst).Nodup) (hm : (k, v) ∈ p) : getP p k = v := by
  induction p with
  | nil => cases hm
  | cons kv rest ih =>
    simp only [List.map_cons, List.nodup_cons] at hnd
    rcases List.mem_cons.mp hm with h | h
    · subst h
      simp [getP, List.lookup]
    · have hk : k ≠ kv.1 := by
        intro he
        exact hnd.1 (he ▸ List.mem_map_of_mem Prod.fst h)
      have hb : (k == kv.1) = false := beq_eq_false_iff_ne.mpr hk
      have heq : getP (kv :: rest) k = getP rest k := by
        simp [getP, List.lookup, hb]
      rw [heq]
      exact ih hnd.2 h

theorem mem_of_getP {p : Params} {k : String} (h : getP p k ≠ "") :
    (k, getP p k) ∈ p := by
  induction p with
  | nil => simp [getP] at h
  | cons kv rest ih =>
    by_cases hk : k = kv.1
    · have heq : getP (kv :: rest) k = kv.2 := by
        simp [getP, List.lookup, hk]
      rw [heq] at h ⊢
      rw [hk]
      exact List.mem_cons_self _ _
    · have hb : (k == kv.1) = false := beq_eq_false_iff_ne.mpr hk
      have heq : getP (kv :: rest) k = getP rest k := by
        simp [getP, List.lookup, hb]
      rw [heq] at h ⊢
      exact List.mem_cons_of_mem _ (ih h)

/-- Membership of a key in `includedKeys`: some entry with that key and a
non-empty value is in the raw list. -/
theorem mem_includedKeys {p : Params} {k : String} :
    k ∈ includedKeys p ↔ ∃ v, (k, v) ∈ p ∧ v ≠ "" := by
  unfold includedKeys
  rw [mem_sortStrings]
  constructor
  · intro h
    obtain ⟨kv, hmem, hfst⟩ := List.mem_map.mp h
    obtain ⟨hp, hne⟩ := List.mem_filter.mp hmem
    exact ⟨kv.2, by rw [← hfst]; exact hp, by simpa using hne⟩
  · rintro ⟨v, hp, hv⟩
    exact List.mem_map.mpr ⟨(k, v), List.mem_filter.mpr ⟨hp, by simpa⟩, rfl⟩

/-- The predicate deciding which sorted keys enter the signed payload and
the query string: everything except `PrivateKey` and `Signature`. -/
def signKey (k : String) : Bool := !(k == "PrivateKey" || k == "Signature")

theorem str_nil_append (s : String) : "" ++ s = s := rfl

theorem signPayload_eq_strConcat (p : Params) (ks : List String) :
    signPayload p ks = strConcat ((ks.filter signKey).map (fun k => k ++ getP p k)) := by
  induction ks with
  | nil => rfl
  | cons k rest ih =>
    unfold signPayload
    rcases h : (k == "PrivateKey" || k == "Signature") with _ | _
    · have hs : signKey k = true := by simp [signKey, h]
      simp [h, hs, strConcat, ih, String.append_assoc]
    · have hs : signKey k = false := by simp [signKey, h]
      simp [h, hs, ih, str_nil_append]

theorem qsPayload_eq_strConcat (p : Params) (ks : List String) :
    qsPayload p ks =
      strConcat ((ks.filter signKey).map (fun k => "&" ++ encodePair k (getP p k))) := by
  induction ks with
  | nil => rfl
  | cons k rest ih =>
    unfold qsPayload
    rcases h : (k == "PrivateKey" || k == "Signature") with _ | _
    · have hs : signKey k = true := by simp [signKey, h]
      simp [h, hs, strConcat, ih, String.append_assoc]
    · have hs : signKey k = false := by simp [signKey, h]
      simp [h, hs, ih, str_nil_append]

/-! ## Filter invariance of the signing pipeline -/

theorem getP_filter (p : Params) (hnd : (p.map Prod.fst).Nodup) (k : String) :
    getP (p.filter (fun kv => kv.2 != "")) k = getP p k := by
  by_cases h : getP p k = ""
  · rw [h]
    by_contra hne
    have hm := mem_of_getP hne
    have hmp : (k, getP (p.filter (fun kv => kv.2 != "")) k) ∈ p :=
      List.mem_of_mem_filter hm
    have heq := getP_eq_of_mem hnd hmp
    rw [h] at heq
    exact hne heq.symm
  · have hm := mem_of_getP h
    have hmf : (k, getP p k) ∈ p.filter (fun kv => kv.2 != "") :=
      List.mem_filter.mpr ⟨hm, by simpa using h⟩
    have hndf : ((p.filter (fun kv => kv.2 != "")).map Prod.fst).Nodup :=
      ((List.filter_sublist p).map Prod.fst).nodup hnd
    exact getP_eq_of_mem hndf hmf

theorem includedKeys_filter (p : Params) :
    includedKeys (p.filter (fun kv => kv.2 != "")) = includedKeys p := by
  unfold includedKeys
  congr 1
  congr 1
  exact List.filter_eq_self.mpr (fun a ha => (List.mem_filter.mp ha).2)

theorem signInput_filter (p : Params) (hnd : (p.map Prod.fst).Nodup) :
    signInput (p.filter (fun kv => kv.2 != "")) = signInput p := by
  unfold signInput
  rw [includedKeys_filter, signPayload_eq_strConcat, signPayload_eq_strConcat,
    getP_filter p hnd]
  congr 2
  exact List.map_congr_left (fun k _ => by rw [getP_filter p hnd k])

theorem signatureOf_filter (p : Params) (hnd : (p.map Prod.fst).Nodup) :
    signatureOf (p.filter (fun kv => kv.2 != "")) = signatureOf p := by
  unfold signatureOf
  rw [signInput_filter p hnd]

theorem toQueryString_filter (p : Params) (hnd : (p.map Prod.fst).Nodup) :
    Params.toQueryString (p.filter (fun kv => kv.2 != "")) = Params.toQueryString p := by
  unfold Params.toQueryString
  rw [includedKeys_filter, qsPayload_eq_strConcat, qsPayload_eq_strConcat,
    signatureOf_filter p hnd]
  congr 3
  exact List.map_congr_left (fun k _ => by rw [getP_filter p hnd k])

/-! ## The spec-side description of the signed payload -/

/-- The fields the spec says are signed (§4.1 steps 1-3): the fields with
a non-empty string representation, sorted lexicographically by name,
with the `PrivateKey` and `Signature` fields excluded.  This definition
follows the spec's words, to be compared with the implementation's
`signInput`. -/
def specSignedFields (p : Params) : List (String × String) :=
  (sortPairs (p.filter (fun kv => kv.2 != ""))).filter
    (fun kv => kv.1 != "PrivateKey" && kv.1 != "Signature")

/-- The signed payload as the spec describes it: `name + value`
concatenated over the signed fields in sorted order, with the raw
`PrivateKey` value appended at the very end. -/
def specSignInput (p : Params) : String :=
  strConcat ((specSignedFields p).map (fun kv => kv.1 ++ kv.2)) ++ getP p "PrivateKey"

/-! ## Concrete fixtures used by witnesses and counterexamples -/

/-- The parameter record of the spec's signing scenario (C2):
`{Action: "DescribeULB", Region: "cn-bj2", Limit: 100}` with the secret
`"secret"` stored in `PrivateKey`. -/
def c2param : DescribeULBParam :=
  { Action := "DescribeULB", PrivateKey := "secret", Region := "cn-bj2", Limit := 100 }

/-- A concrete cloud configuration. -/
def cloud0 : Cloud :=
  { BaseURL := "https://api.ucloud.cn", PublicKey := "pubkey", PrivateKey := "privkey",
    Region := "cn-bj2", Zone := "cn-bj2-02", ProjectID := "org-1" }

/-- A concrete virtual server whose bound backends are the resources
`uhost-a` (binding `backend-a`) and `uhost-b` (binding `backend-b`). -/
def vserver0 : ULBVServerSet :=
  { VserverID := "vserver-1",
    VServerSet := [{ BackendID := "backend-a", ResourceID := "uhost-a" },
                   { BackendID := "backend-b", ResourceID := "uhost-b" }] }

/-- A concrete remote load balancer named `lb-a`, with one bound EIP and
the virtual server `vserver0`. -/
def ulb0 : ULBSet :=
  { ULBID := "ulb-1", Name := "lb-a", IPSet := [{ EIPID := "eip-1" }],
    VServerSet := [vserver0] }

/-- An environment whose ULB listing succeeds but contains no entry. -/
def envNotFound : ClientEnv :=
  { describeULB := fun _ => .ok { RetCode := 0, DataSet := [] } }

/-- An environment whose ULB listing succeeds with an entry named
`other-lb` only. -/
def envOtherName : ClientEnv :=
  { describeULB := fun _ => .ok { RetCode := 0, DataSet := [{ Name := "other-lb" }] } }

/-- An environment where the `DescribeULB` HTTP request itself fails. -/
def envBadDescribe : ClientEnv :=
  { describeULB := fun _ => .transportErr "connection refused" }

/-- An environment where the lookup finds `lb-a` but the `DeleteULB`
HTTP request fails at transport level. -/
def envBadDelete : ClientEnv :=
  { describeULB := fun _ => .ok { RetCode := 0, DataSet := [ulb0] },
    deleteULB := fun _ => .transportErr "connection refused" }

/-- An environment where the lookup finds `lb-a`, `DeleteULB` decodes
with the non-zero `RetCode` 171, and the EIP release fails at transport
level: every failure the code only logs. -/
def envDeleteRetCode : ClientEnv :=
  { describeULB := fun _ => .ok { RetCode := 0, DataSet := [ulb0] },
    deleteULB := fun _ => .ok { RetCode := 171, Message := "delete failed" },
    releaseEIP := fun _ => .transportErr "connection refused" }

/-! ## Helper lemmas -/

/-- `describeLoadBalancer` always issues exactly its one `DescribeULB`
call, whatever the environment answers. -/
theorem describeLoadBalancer_trace (c : Cloud) (env : ClientEnv) (name : String) :
    (c.describeLoadBalancer env name).2 = [CloudCall.describeULB (describeULBParamOf c)] := by
  unfold Cloud.describeLoadBalancer
  rcases h : env.describeULB (describeULBParamOf c) with e | ⟨e, r⟩ | r <;> simp only [h]
  split
  · rfl
  · cases r.DataSet.find? (fun lb => lb.Name == name) <;> rfl

/-! ## Claim theorems -/

/-- C5: when the lookup yields the `ULBNotFound` sentinel,
`deleteLoadBalancer` returns success (`nil`) and issues no `DeleteULB`
call to the remote API. -/
theorem deleteLoadBalancer_notFound_is_success (c : Cloud) (env : ClientEnv)
    (name : String)
    (h : (c.describeLoadBalancer env name).1 = .error .ulbNotFound) :
    (c.deleteLoadBalancer env name).1 = .ret none ∧
      ∀ p, CloudCall.deleteULB p ∉ (c.deleteLoadBalancer env name).2 := by
  have htr := describeLoadBalancer_trace c env name
  rcases hd : c.describeLoadBalancer env name with ⟨res, tr⟩
  rw [hd] at h htr
  simp only at h htr
  subst h htr
  unfold Cloud.deleteLoadBalancer
  rw [hd]
  exact ⟨rfl, by intro p hp; simp at hp⟩

/-- C5 witness: against an environment whose listing succeeds with no
entries, deleting `lb-a` succeeds without a `DeleteULB` call. -/
theorem deleteLoadBalancer_notFound_is_success_witness :
    (cloud0.describeLoadBalancer envNotFound "lb-a").1 = .error .ulbNotFound ∧
      ((cloud0.deleteLoadBalancer envNotFound "lb-a").1 = .ret none ∧
        ∀ p, CloudCall.deleteULB p ∉ (cloud0.deleteLoadBalancer envNotFound "lb-a").2) :=
  ⟨rfl, deleteLoadBalancer_notFound_is_success cloud0 envNotFound "lb-a" rfl⟩

/-- C6: when `DescribeULB` succeeds with `RetCode` 0 but no returned
entry's name matches, the lookup yields the `ULBNotFound` sentinel. -/
theorem describeLoadBalancer_noMatch_notFound (c : Cloud) (env : ClientEnv)
    (name : String) (resp : DescribeULBResponse)
    (h1 : env.describeULB (describeULBParamOf c) = .ok resp)
    (h2 : resp.RetCode = 0)
    (h3 : ∀ lb ∈ resp.DataSet, lb.Name ≠ name) :
    (c.describeLoadBalancer env name).1 = .error .ulbNotFound := by
  have hfind : resp.DataSet.find? (fun lb => lb.Name == name) = none := by
    apply List.find?_eq_none.mpr
    intro lb hlb
    simpa using h3 lb hlb
  unfold Cloud.describeLoadBalancer
  simp [h1, h2, hfind]

/-- C6 witness: a listing that answers `RetCode` 0 with only an entry
named `other-lb` makes the lookup of `lb-a` yield the sentinel. -/
theorem describeLoadBalancer_noMatch_notFound_witness :
    envOtherName.describeULB (describeULBParamOf cloud0) =
        .ok { RetCode := 0, DataSet := [{ Name := "other-lb" }] } ∧
      (cloud0.describeLoadBalancer envOtherName "lb-a").1 = .error .ulbNotFound :=
  ⟨rfl, describeLoadBalancer_noMatch_notFound cloud0 envOtherName "lb-a"
    { RetCode := 0, DataSet := [{ Name := "other-lb" }] } rfl rfl (by decide)⟩

/-- C9: `deleteLoadBalancer` hits a nil-pointer dereference when the
lookup fails with a non-`ULBNotFound` error (it then reads
`ulbSet.ULBID` from a nil `ulbSet`) or when `DeleteULB` fails at
transport level (it then reads `r.RetCode` from a nil `r`); and the
dereference is unreachable whenever the lookup returns a load balancer
or `ULBNotFound` and the delete call succeeds at transport level. -/
theorem deleteLoadBalancer_nil_dereference :
    (cloud0.deleteLoadBalancer envBadDescribe "lb-a").1 = .nilPanic ∧
    (cloud0.deleteLoadBalancer envBadDelete "lb-a").1 = .nilPanic ∧
    ∀ (c : Cloud) (env : ClientEnv) (name : String),
      ((c.describeLoadBalancer env name).1 = .error .ulbNotFound ∨
        ∃ s, (c.describeLoadBalancer env name).1 = .ok s) →
      (∀ p e, env.deleteULB p ≠ .transportErr e) →
      (c.deleteLoadBalancer env name).1 ≠ .nilPanic := by
  refine ⟨rfl, rfl, ?_⟩
  intro c env name h1 h2
  rcases hd : c.describeLoadBalancer env name with ⟨res, tr⟩
  rw [hd] at h1
  simp only at h1
  unfold Cloud.deleteLoadBalancer
  rw [hd]
  match res, h1 with
  | .error .ulbNotFound, _ => simp
  | .error (.transport e), h1 => rcases h1 with h | ⟨s, h⟩ <;> simp at h
  | .error (.decode e), h1 => rcases h1 with h | ⟨s, h⟩ <;> simp at h
  | .error (.message m), h1 => rcases h1 with h | ⟨s, h⟩ <;> simp at h
  | .ok s, _ =>
    simp only
    rcases hdel : env.deleteULB
        { Region := c.Region, ProjectID := c.ProjectID, ULBID := s.ULBID } with
        e | ⟨e, r⟩ | r <;> simp only [hdel] <;> simp
    exact absurd hdel (h2 _ e)

/-- C9 witness: with a found load balancer and a delete call that does
not fail at transport level, no nil dereference happens. -/
theorem deleteLoadBalancer_nil_dereference_witness :
    (∃ s, (cloud0.describeLoadBalancer envDeleteRetCode "lb-a").1 = .ok s) ∧
      (cloud0.deleteLoadBalancer envDeleteRetCode "lb-a").1 ≠ .nilPanic :=
  ⟨⟨ulb0, rfl⟩,
    deleteLoadBalancer_nil_dereference.2.2 cloud0 envDeleteRetCode "lb-a"
      (Or.inr ⟨ulb0, rfl⟩) (fun p e h => by simp [envDeleteRetCode] at h)⟩

/-- C10 counterexample: on a transport-level lookup failure,
`EnsureLoadBalancerDeleted` does not return `nil` — it hits the
nil-pointer dereference instead of returning at all. -/
theorem ensureDeleted_not_always_nil :
    (cloud0.EnsureLoadBalancerDeleted envBadDescribe "lb-a").1 = .nilPanic ∧
      (cloud0.EnsureLoadBalancerDeleted envBadDescribe "lb-a").1 ≠ .ret none :=
  ⟨rfl, by decide⟩

/-- C10 (amended): whenever `EnsureLoadBalancerDeleted` actually returns
(it does not hit the nil dereference), the returned error is `nil`, even
when `DeleteULB` reported a non-zero `RetCode` or an EIP release failed:
those failures are only logged. -/
theorem ensureDeleted_returns_nil (c : Cloud) (env : ClientEnv) (name : String)
    (e : Option GoError)
    (h : (c.EnsureLoadBalancerDeleted env name).1 = .ret e) : e = none := by
  unfold Cloud.EnsureLoadBalancerDeleted at h
  rcases hd : c.describeLoadBalancer env name with ⟨res, tr⟩
  unfold Cloud.deleteLoadBalancer at h
  rw [hd] at h
  match res, h with
  | .error .ulbNotFound, h => simpa using h.symm
  | .error (.transport e0), h => simp at h
  | .error (.decode e0), h => simp at h
  | .error (.message m), h => simp at h
  | .ok s, h =>
    simp only at h
    rcases hdel : env.deleteULB
        { Region := c.Region, ProjectID := c.ProjectID, ULBID := s.ULBID } with
        e0 | ⟨e0, r⟩ | r <;> rw [hdel] at h <;> simp at h
    · exact h.symm
    · exact h.symm

/-- C10 witness: an environment where the delete call answers the
non-zero `RetCode` 171 and the EIP release fails at transport level
still makes `EnsureLoadBalancerDeleted` return `nil`. -/
theorem ensureDeleted_returns_nil_witness :
    (cloud0.EnsureLoadBalancerDeleted envDeleteRetCode "lb-a").1 = .ret none ∧
      (none : Option GoError) = none :=
  ⟨rfl, ensureDeleted_returns_nil cloud0 envDeleteRetCode "lb-a" none rfl⟩

/-- C7: for the typed client operations (`DescribeULB` and
`AllocateBackend`): a transport-level GET failure is returned to the
caller unmodified, with exactly one request issued (no retry); and a
successfully decoded response with a non-zero `RetCode` is returned with
a `nil` error — the non-zero code is not turned into a client-level
error. -/
theorem client_error_channel (c : UClient)
    (henv1 : String → HTTPResult DescribeULBResponse)
    (henv2 : String → HTTPResult AllocateBackendResponse)
    (p1 : DescribeULBParam) (p2 : AllocateBackendParam)
    (e1 e2 : String) (r1 : DescribeULBResponse) (r2 : AllocateBackendResponse) :
    (henv1 (c.GetQueryURL ((p1.setKey c.PublicKey c.PrivateKey).QueryString)) =
        .transportErr e1 →
      UClient.DescribeULB c henv1 p1 = ((none, some (.transport e1)),
        [c.GetQueryURL ((p1.setKey c.PublicKey c.PrivateKey).QueryString)])) ∧
    (henv1 (c.GetQueryURL ((p1.setKey c.PublicKey c.PrivateKey).QueryString)) = .ok r1 →
      r1.RetCode ≠ 0 →
      UClient.DescribeULB c henv1 p1 = ((some r1, none),
        [c.GetQueryURL ((p1.setKey c.PublicKey c.PrivateKey).QueryString)])) ∧
    (henv2 (c.GetQueryURL ((p2.setKey c.PublicKey c.PrivateKey).QueryString)) =
        .transportErr e2 →
      UClient.AllocateBackend c henv2 p2 = ((none, some (.transport e2)),
        [c.GetQueryURL ((p2.setKey c.PublicKey c.PrivateKey).QueryString)])) ∧
    (henv2 (c.GetQueryURL ((p2.setKey c.PublicKey c.PrivateKey).QueryString)) = .ok r2 →
      r2.RetCode ≠ 0 →
      UClient.AllocateBackend c henv2 p2 = ((some r2, none),
        [c.GetQueryURL ((p2.setKey c.PublicKey c.PrivateKey).QueryString)])) := by
  refine ⟨fun h => ?_, fun h _ => ?_, fun h => ?_, fun h _ => ?_⟩
  · simp only [UClient.DescribeULB]; rw [h]
  · simp only [UClient.DescribeULB]; rw [h]
  · simp only [UClient.AllocateBackend]; rw [h]
  · simp only [UClient.AllocateBackend]; rw [h]

/-- C7 witness: a transport failure comes back unmodified from
`DescribeULB`, and an `AllocateBackend` response with `RetCode` 171 comes
back with a `nil` error. -/
theorem client_error_channel_witness :
    ((fun _ => .transportErr "connection refused" :
        String → HTTPResult DescribeULBResponse) "x" =
          .transportErr "connection refused" ∧
      (fun _ => .ok { RetCode := 171 } :
        String → HTTPResult AllocateBackendResponse) "x" = .ok { RetCode := 171 } ∧
      ({ RetCode := 171 } : AllocateBackendResponse).RetCode ≠ 0) ∧
    UClient.DescribeULB cloud0.toUClient (fun _ => .transportErr "connection refused")
        {} = ((none, some (.transport "connection refused")),
          [cloud0.toUClient.GetQueryURL
            (({} : DescribeULBParam).setKey "pubkey" "privkey").QueryString]) ∧
    UClient.AllocateBackend cloud0.toUClient (fun _ => .ok { RetCode := 171 })
        {} = ((some { RetCode := 171 }, none),
          [cloud0.toUClient.GetQueryURL
            (({} : AllocateBackendParam).setKey "pubkey" "privkey").QueryString]) :=
  ⟨⟨rfl, rfl, by decide⟩,
    (client_error_channel cloud0.toUClient
      (fun _ => .transportErr "connection refused") (fun _ => .ok { RetCode := 171 })
      {} {} "connection refused" "" {} { RetCode := 171 }).1 rfl,
    (client_error_channel cloud0.toUClient
      (fun _ => .transportErr "connection refused") (fun _ => .ok { RetCode := 171 })
      {} {} "connection refused" "" {} { RetCode := 171 }).2.2.2 rfl (by decide)⟩

/-- C8: whatever the caller placed in the parameter record, the client
layer overwrites `Action`, `PublicKey` and `PrivateKey` via `setKey`
with its stored credentials before the request is sent, and the one URL
requested is built from that rewritten record. -/
theorem client_injects_credentials (c : UClient)
    (henv1 : String → HTTPResult DescribeULBResponse)
    (henv2 : String → HTTPResult AllocateBackendResponse)
    (p1 : DescribeULBParam) (p2 : AllocateBackendParam) :
    (UClient.DescribeULB c henv1 p1).2 =
        [c.GetQueryURL ((p1.setKey c.PublicKey c.PrivateKey).QueryString)] ∧
    (p1.setKey c.PublicKey c.PrivateKey).Action = "DescribeULB" ∧
    (p1.setKey c.PublicKey c.PrivateKey).PublicKey = c.PublicKey ∧
    (p1.setKey c.PublicKey c.PrivateKey).PrivateKey = c.PrivateKey ∧
    (UClient.AllocateBackend c henv2 p2).2 =
        [c.GetQueryURL ((p2.setKey c.PublicKey c.PrivateKey).QueryString)] ∧
    (p2.setKey c.PublicKey c.PrivateKey).Action = "AllocateBackend" ∧
    (p2.setKey c.PublicKey c.PrivateKey).PublicKey = c.PublicKey ∧
    (p2.setKey c.PublicKey c.PrivateKey).PrivateKey = c.PrivateKey := by
  refine ⟨?_, rfl, rfl, rfl, ?_, rfl, rfl, rfl⟩
  · simp only [UClient.DescribeULB]
    rcases h : henv1 (c.GetQueryURL ((p1.setKey c.PublicKey c.PrivateKey).QueryString)) with
      e | ⟨e, r⟩ | r <;> simp [h]
  · simp only [UClient.AllocateBackend]
    rcases h : henv2 (c.GetQueryURL ((p2.setKey c.PublicKey c.PrivateKey).QueryString)) with
      e | ⟨e, r⟩ | r <;> simp [h]

/-- C1 counterexample: in the scenario record the `Offset` field holds
integer zero, yet `Offset` is among the included keys and `Offset0`
appears in the SHA-1 signing input — a zero-valued integer field is not
excluded. -/
theorem zero_int_field_included_concrete :
    "Offset" ∈ includedKeys c2param.toParams ∧
      signInput c2param.toParams =
        "ActionDescribeULBLimit100Offset0Regioncn-bj2secret" := by
  exact ⟨by decide, by decide⟩

/-- C1 (amended): a field whose value is the empty string is excluded
from the included keys, and dropping all empty-valued fields changes
neither the signing input nor the emitted query string; but a field
whose value is integer zero is stringified to `"0"` and appears in both
the signing input (as `name + "0"`) and the query string (as
`&name=0`). -/
theorem empty_string_excluded_zero_int_included
    (p : Params) (k : String) (q : DescribeULBParam)
    (hnd : (p.map Prod.fst).Nodup) (hk : getP p k = "") (hq : q.Offset = 0) :
    k ∉ includedKeys p ∧
    signInput (p.filter (fun kv => kv.2 != "")) = signInput p ∧
    Params.toQueryString (p.filter (fun kv => kv.2 != "")) = Params.toQueryString p ∧
    "Offset" ∈ includedKeys q.toParams ∧
    (∃ s1 s2, signInput q.toParams = s1 ++ ("Offset0" ++ s2)) ∧
    (∃ s1 s2, (q.toParams).toQueryString = s1 ++ ("&Offset=0" ++ s2)) := by
  have hOffVal : getP q.toParams "Offset" = "0" := by
    have h0 : getP q.toParams "Offset" = goIntStr q.Offset := rfl
    rw [h0, hq]
    rfl
  have hOffP : ("Offset", "0") ∈ q.toParams := by
    have hg : ("Offset", goIntStr q.Offset) ∈ q.toParams := by
      simp [DescribeULBParam.toParams]
    rw [hq] at hg
    exact hg
  have hOffMem : "Offset" ∈ includedKeys q.toParams :=
    mem_includedKeys.mpr ⟨"0", hOffP, by decide⟩
  have hOffF : "Offset" ∈ (includedKeys q.toParams).filter signKey :=
    List.mem_filter.mpr ⟨hOffMem, by decide⟩
  refine ⟨?_, signInput_filter p hnd, toQueryString_filter p hnd, hOffMem, ?_, ?_⟩
  · intro hmem
    obtain ⟨v, hvp, hvne⟩ := mem_includedKeys.mp hmem
    exact hvne (by rw [← getP_eq_of_mem hnd hvp, hk])
  · obtain ⟨s1, s2, hsplit⟩ :=
      strConcat_split (fun k => k ++ getP q.toParams k) hOffF
    have hOff0 : "Offset" ++ getP q.toParams "Offset" = "Offset0" := by
      rw [hOffVal]
      decide
    refine ⟨s1, s2 ++ getP q.toParams "PrivateKey", ?_⟩
    unfold signInput
    rw [signPayload_eq_strConcat, hsplit, hOff0]
    simp only [String.append_assoc]
  · obtain ⟨t1, t2, hsplit⟩ :=
      strConcat_split (fun k => "&" ++ encodePair k (getP q.toParams k)) hOffF
    have hOffQ : "&" ++ encodePair "Offset" (getP q.toParams "Offset") = "&Offset=0" := by
      rw [hOffVal]
      decide
    refine ⟨t1, t2 ++ ("&" ++ encodePair "Signature" (signatureOf q.toParams)), ?_⟩
    unfold Params.toQueryString
    rw [qsPayload_eq_strConcat, hsplit, hOffQ]
    simp only [String.append_assoc]

/-- C1 witness: in the scenario record, `ProjectId` is empty and so
excluded, while the zero `Offset` is included. -/
theorem empty_string_excluded_zero_int_included_witness :
    (((c2param.toParams).map Prod.fst).Nodup ∧
        getP c2param.toParams "ProjectId" = "" ∧ c2param.Offset = 0) ∧
      ("ProjectId" ∉ includedKeys c2param.toParams ∧
        signInput ((c2param.toParams).filter (fun kv => kv.2 != "")) =
          signInput c2param.toParams ∧
        Params.toQueryString ((c2param.toParams).filter (fun kv => kv.2 != "")) =
          Params.toQueryString c2param.toParams ∧
        "Offset" ∈ includedKeys c2param.toParams ∧
        (∃ s1 s2, signInput c2param.toParams = s1 ++ ("Offset0" ++ s2)) ∧
        (∃ s1 s2, (c2param.toParams).toQueryString = s1 ++ ("&Offset=0" ++ s2))) :=
  ⟨⟨by decide, by decide, by decide⟩,
    empty_string_excluded_zero_int_included c2param.toParams "ProjectId" c2param
      (by decide) (by decide) (by decide)⟩

/-- C2 counterexample: the signature of the scenario record is not the
SHA-1 digest of `"ActionDescribeULBLimit100Regioncn-bj2secret"` — the
zero `Offset` field enters the signing input. -/
theorem scenario_signature_differs :
    signatureOf c2param.toParams ≠
      sha1Hex "ActionDescribeULBLimit100Regioncn-bj2secret" := by
  decide

/-- C2 (amended): the scenario record yields the query string with field
order `Action, Limit, Offset, Region` followed by the `Signature` pair,
whose value is the SHA-1 hex digest of
`"ActionDescribeULBLimit100Offset0Regioncn-bj2secret"`. -/
theorem scenario_query_string_actual :
    (c2param.toParams).toQueryString =
        "&Action=DescribeULB&Limit=100&Offset=0&Region=cn-bj2&Signature=23411bc625aff0b6bb95b1adbcba65eb1302a69f" ∧
      signatureOf c2param.toParams =
        sha1Hex "ActionDescribeULBLimit100Offset0Regioncn-bj2secret" := by
  exact ⟨by decide, by decide⟩

/-- C3: for every parameter record with distinct field names, the
signature is the lowercase-hex SHA-1 digest of the spec's payload: the
included fields sorted lexicographically by name, `PrivateKey` and
`Signature` excluded, `name + value` concatenated, and the raw
`PrivateKey` value appended at the very end. -/
theorem signature_follows_spec_scheme (p : Params) (hnd : (p.map Prod.fst).Nodup) :
    signatureOf p = sha1Hex (specSignInput p) := by
  have hfields : (includedKeys p).filter signKey = (specSignedFields p).map Prod.fst := by
    unfold includedKeys specSignedFields
    rw [← map_fst_sortPairs, List.filter_map]
    refine congrArg (List.map Prod.fst) ?_
    apply List.filter_congr
    intro kv _
    simp [signKey, Function.comp, Bool.not_or, bne]
  unfold signatureOf
  refine congrArg sha1Hex ?_
  unfold signInput specSignInput
  refine congrArg (· ++ getP p "PrivateKey") ?_
  rw [signPayload_eq_strConcat, hfields, List.map_map]
  refine congrArg strConcat ?_
  apply List.map_congr_left
  intro kv hkv
  have hmem : kv ∈ p := by
    have h1 : kv ∈ sortPairs (p.filter (fun kv => kv.2 != "")) := by
      unfold specSignedFields at hkv
      exact List.mem_of_mem_filter hkv
    exact List.mem_of_mem_filter ((sortPairs_perm _).mem_iff.mp h1)
  show kv.1 ++ getP p kv.1 = kv.1 ++ kv.2
  rw [getP_eq_of_mem hnd hmem]

/-- C3 witness: the scenario record has distinct field names, and its
signature equals the SHA-1 of the spec-described payload. -/
theorem signature_follows_spec_scheme_witness :
    ((c2param.toParams).map Prod.fst).Nodup ∧
      signatureOf c2param.toParams = sha1Hex (specSignInput c2param.toParams) :=
  ⟨by decide, signature_follows_spec_scheme c2param.toParams (by decide)⟩

/-! ## Lemmas for the membership-update diff (C4) -/

theorem foldl_setInsert (l : List String) :
    ∀ acc, (acc ++ l).Nodup → l.foldl setInsert acc = acc ++ l := by
  induction l with
  | nil => intro acc _; simp
  | cons x xs ih =>
    intro acc h
    have hx : x ∉ acc := by
      rcases List.nodup_append.mp h with ⟨_, _, hdisj⟩
      intro hxa
      exact hdisj hxa (List.mem_cons_self x xs)
    have hc : acc.contains x = false := by
      simp [List.elem_eq_mem, hx]
    rw [List.foldl_cons, show setInsert acc x = acc ++ [x] by simp [setInsert, hc, hx],
      ih (acc ++ [x]) (by rw [← List.append_cons]; exact h), ← List.append_cons]

/-- The Go set `m1` is just `uHostIDs` itself when the IDs are distinct. -/
theorem setOfList_eq_self (l : List String) (h : l.Nodup) : setOfList l = l := by
  have hf := foldl_setInsert l [] (by simpa using h)
  simpa [setOfList] using hf

theorem foldl_mapInsert (ps : List (String × String)) :
    ∀ acc, ((acc ++ ps).map Prod.fst).Nodup →
      ps.foldl (fun m kv => mapInsert m kv.1 kv.2) acc = acc ++ ps := by
  induction ps with
  | nil => intro acc _; simp
  | cons kv rest ih =>
    intro acc h
    have hx : kv.1 ∉ acc.map Prod.fst := by
      rw [List.map_append] at h
      rcases List.nodup_append.mp h with ⟨_, _, hdisj⟩
      intro hxa
      exact hdisj hxa (by simp)
    have hc : (acc.any (fun kv2 => kv2.1 == kv.1)) = false := by
      apply List.any_eq_false.mpr
      intro kv2 hkv2
      simp only [beq_iff_eq]
      intro he
      exact hx (he ▸ List.mem_map_of_mem Prod.fst hkv2)
    rw [List.foldl_cons, show mapInsert acc kv.1 kv.2 = acc ++ [kv] by
        simp [mapInsert, hc],
      ih (acc ++ [kv]) (by rw [← List.append_cons]; exact h), ← List.append_cons]

/-- The Go map `m2` lists exactly the `(ResourceID, BackendID)` pairs of
the bound backends when the resource IDs are distinct. -/
theorem mapOfBackends_eq (bs : List ULBBackendSet)
    (h : (bs.map (fun b => b.ResourceID)).Nodup) :
    mapOfBackends bs = bs.map (fun b => (b.ResourceID, b.BackendID)) := by
  have h2 : (([] ++ bs.map (fun b : ULBBackendSet => (b.ResourceID, b.BackendID))).map
      Prod.fst).Nodup := by
    simpa [List.map_map, Function.comp] using h
  have hf := foldl_mapInsert (bs.map (fun b => (b.ResourceID, b.BackendID))) [] h2
  rw [List.foldl_map] at hf
  simpa [mapOfBackends] using hf

theorem releaseLoop_all_ok (c : Cloud) (env : ClientEnv) (ulbID : String)
    (m1 : List String)
    (hok : ∀ p, ∃ r, env.releaseBackend p = .ok r ∧ r.RetCode = 0) :
    ∀ pairs, releaseLoop c env ulbID m1 pairs =
      (none, (pairs.filter (fun kv => !m1.contains kv.1)).map (fun kv =>
        CloudCall.releaseBackend
          { Region := c.Region, ProjectID := c.ProjectID, ULBID := ulbID,
            BackendID := kv.2 })) := by
  intro pairs
  induction pairs with
  | nil => rfl
  | cons kv rest ih =>
    rcases kv with ⟨host, backendID⟩
    obtain ⟨r, hr, hrc⟩ := hok
      { Region := c.Region, ProjectID := c.ProjectID, ULBID := ulbID,
        BackendID := backendID }
    unfold releaseLoop
    by_cases h : m1.contains host
    · have hm : host ∈ m1 := by simpa using h
      simp [h, hm, ih]
    · have hm : host ∉ m1 := by simpa using h
      simp [h, hm, hr, hrc, ih]

theorem allocLoop_all_ok (c : Cloud) (env : ClientEnv) (ulbID vserverID : String)
    (port : Int) (m2 : List (String × String))
    (hok : ∀ p, ∃ r, env.allocateBackend p = .ok r ∧ r.RetCode = 0) :
    ∀ hosts, allocLoop c env ulbID vserverID port m2 hosts =
      (none, (hosts.filter (fun h => !m2.any (fun kv => kv.1 == h))).map (fun h =>
        CloudCall.allocateBackend
          { Region := c.Region, ProjectID := c.ProjectID, ULBID := ulbID,
            VServerID := vserverID, ResourceType := "UHost", ResourceID := h,
            Port := port, Enabled := 1 })) := by
  intro hosts
  induction hosts with
  | nil => rfl
  | cons host rest ih =>
    obtain ⟨r, hr, hrc⟩ := hok
      { Region := c.Region, ProjectID := c.ProjectID, ULBID := ulbID,
        VServerID := vserverID, ResourceType := "UHost", ResourceID := host,
        Port := port, Enabled := 1 }
    unfold allocLoop
    by_cases h : m2.any (fun kv => kv.1 == host)
    · have hm : ∃ kv ∈ m2, kv.1 = host := by simpa using h
      simp [h, hm, ih]
    · have hm : ¬ ∃ kv ∈ m2, kv.1 = host := by simpa using h
      simp [h, hm, hr, hrc, ih]

/-- `getUHostIDs` always issues exactly its one `DescribeUHostInstance`
call. -/
theorem getUHostIDs_trace (c : Cloud) (env : ClientEnv) (nodeNames : List String) :
    (c.getUHostIDs env nodeNames).2 =
      [CloudCall.describeUHostInstance (describeUHostParamOf c)] := by
  unfold Cloud.getUHostIDs
  rcases h : env.describeUHostInstance (describeUHostParamOf c) with e | ⟨e, r⟩ | r <;>
    simp only [h]
  split <;> rfl

/-- Project a client call onto the backend-membership operations:
`Sum.inl` is a `ReleaseBackend` identified by its `BackendID`, `Sum.inr`
an `AllocateBackend` identified by its `ResourceID`; all other calls are
dropped. -/
def backendCallId : CloudCall → Option (String ⊕ String)
  | .releaseBackend p => some (.inl p.BackendID)
  | .allocateBackend p => some (.inr p.ResourceID)
  | _ => none

theorem filterMap_some_eq_map (f : α → β) (l : List α) :
    l.filterMap (fun a => some (f a)) = l.map f :=
  List.filterMap_eq_map_iff_forall_eq_some.mpr (fun _ _ => rfl)

theorem backendCallId_describeULB (p : DescribeULBParam) :
    backendCallId (CloudCall.describeULB p) = none := rfl

theorem backendCallId_describeUHost (p : DescribeUHostInstanceParam) :
    backendCallId (CloudCall.describeUHostInstance p) = none := rfl

/-- C4: in a successful membership update, the backend calls issued are
exactly one `ReleaseBackend` per bound backend whose resource is no
longer desired and one `AllocateBackend` per desired resource not yet
bound — in particular, with current backends `{A, B}` and desired
`{B, C}`, one release for `A`, one allocate for `C`, and nothing for
`B`. -/
theorem update_membership_diff
    (c : Cloud) (env : ClientEnv) (name : String) (service : Service)
    (nodeNames : List String) (ulbSet : ULBSet) (sp : ServicePort)
    (restPorts : List ServicePort) (vs0 : ULBVServerSet) (vrest : List ULBVServerSet)
    (uHostIDs : List String)
    (h1 : (c.describeLoadBalancer env name).1 = .ok ulbSet)
    (h2 : service.Ports = sp :: restPorts)
    (h3 : (c.getUHostIDs env nodeNames).1 = .ok uHostIDs)
    (h4 : ulbSet.VServerSet = vs0 :: vrest)
    (h5 : ∀ p, ∃ r, env.releaseBackend p = .ok r ∧ r.RetCode = 0)
    (h6 : ∀ p, ∃ r, env.allocateBackend p = .ok r ∧ r.RetCode = 0)
    (h7 : (vs0.VServerSet.map (fun b => b.ResourceID)).Nodup)
    (h8 : uHostIDs.Nodup) :
    (c.UpdateLoadBalancer env name service nodeNames).1 = .ret none ∧
    ((c.UpdateLoadBalancer env name service nodeNames).2.filterMap backendCallId).Perm
      ((vs0.VServerSet.filter
          (fun b => !uHostIDs.contains b.ResourceID)).map (fun b => Sum.inl b.BackendID) ++
        (uHostIDs.filter
          (fun h => !(vs0.VServerSet.map (fun b => b.ResourceID)).contains h)).map
          Sum.inr) := by
  have htr := describeLoadBalancer_trace c env name
  have htr2 := getUHostIDs_trace c env nodeNames
  rcases hd : c.describeLoadBalancer env name with ⟨res, tr⟩
  rcases hg : c.getUHostIDs env nodeNames with ⟨gres, tr2⟩
  rw [hd] at h1 htr
  rw [hg] at h3 htr2
  simp only at h1 h3 htr htr2
  subst h1 h3 htr htr2
  have heq : c.UpdateLoadBalancer env name service nodeNames =
      (.ret none,
        [CloudCall.describeULB (describeULBParamOf c)] ++
          [CloudCall.describeUHostInstance (describeUHostParamOf c)] ++
          ((vs0.VServerSet.map (fun b => (b.ResourceID, b.BackendID))).filter
              (fun kv => !uHostIDs.contains kv.1)).map (fun kv =>
            CloudCall.releaseBackend
              { Region := c.Region, ProjectID := c.ProjectID, ULBID := ulbSet.ULBID,
                BackendID := kv.2 }) ++
          (uHostIDs.filter (fun h =>
              !(vs0.VServerSet.map (fun b => (b.ResourceID, b.BackendID))).any
                (fun kv => kv.1 == h))).map (fun h =>
            CloudCall.allocateBackend
              { Region := c.Region, ProjectID := c.ProjectID, ULBID := ulbSet.ULBID,
                VServerID := vs0.VserverID, ResourceType := "UHost", ResourceID := h,
                Port := sp.Port, Enabled := 1 })) := by
    unfold Cloud.UpdateLoadBalancer
    rw [hd]
    simp only [h2, hg, h4, setOfList_eq_self uHostIDs h8,
      mapOfBackends_eq vs0.VServerSet h7,
      releaseLoop_all_ok c env ulbSet.ULBID uHostIDs h5,
      allocLoop_all_ok c env ulbSet.ULBID vs0.VserverID sp.Port
        (vs0.VServerSet.map (fun b => (b.ResourceID, b.BackendID))) h6]
  rw [heq]
  refine ⟨rfl, ?_⟩
  have hpred : uHostIDs.filter (fun h =>
      !(vs0.VServerSet.map (fun b => (b.ResourceID, b.BackendID))).any
        (fun kv => kv.1 == h)) =
      uHostIDs.filter (fun h =>
        !(vs0.VServerSet.map (fun b => b.ResourceID)).contains h) := by
    apply List.filter_congr
    intro h _
    refine congrArg (fun b => !b) ?_
    simp [List.elem_eq_mem, List.mem_map, List.any_eq, beq_iff_eq]
  have hfm : (([CloudCall.describeULB (describeULBParamOf c)] ++
        [CloudCall.describeUHostInstance (describeUHostParamOf c)] ++
        ((vs0.VServerSet.map (fun b => (b.ResourceID, b.BackendID))).filter
            (fun kv => !uHostIDs.contains kv.1)).map (fun kv =>
          CloudCall.releaseBackend
            { Region := c.Region, ProjectID := c.ProjectID, ULBID := ulbSet.ULBID,
              BackendID := kv.2 }) ++
        (uHostIDs.filter (fun h =>
            !(vs0.VServerSet.map (fun b => (b.ResourceID, b.BackendID))).any
              (fun kv => kv.1 == h))).map (fun h =>
          CloudCall.allocateBackend
            { Region := c.Region, ProjectID := c.ProjectID, ULBID := ulbSet.ULBID,
              VServerID := vs0.VserverID, ResourceType := "UHost", ResourceID := h,
              Port := sp.Port, Enabled := 1 })).filterMap backendCallId) =
      ((vs0.VServerSet.filter
          (fun b => !uHostIDs.contains b.ResourceID)).map (fun b => Sum.inl b.BackendID) ++
        (uHostIDs.filter
          (fun h => !(vs0.VServerSet.map (fun b => b.ResourceID)).contains h)).map
          Sum.inr) := by
    rw [hpred]
    simp only [List.filterMap_append, List.filterMap_map, Function.comp_def, backendCallId]
    rw [filterMap_some_eq_map, filterMap_some_eq_map]
    simp [List.filter_map, List.map_map, Function.comp_def, backendCallId_describeULB,
      backendCallId_describeUHost, List.filterMap_cons]
  rw [hfm]

/-- The C4 scenario environment: the bound backends of `lb-a` are
`uhost-a` and `uhost-b` (`vserver0`), the desired nodes `ip-b`, `ip-c`
resolve to `uhost-b`, `uhost-c`, and the release/allocate calls all
succeed with `RetCode` 0. -/
def envUpdate : ClientEnv :=
  { describeULB := fun _ => .ok { RetCode := 0, DataSet := [ulb0] },
    describeUHostInstance := fun _ => .ok { RetCode := 0, UHostSet :=
      [{ UHostID := "uhost-b", IPSet := [{ IP := "ip-b" }] },
       { UHostID := "uhost-c", IPSet := [{ IP := "ip-c" }] }] },
    releaseBackend := fun _ => .ok { RetCode := 0 },
    allocateBackend := fun _ => .ok { RetCode := 0 } }

/-- C4 witness: with current backends `{uhost-a, uhost-b}` and desired
`{uhost-b, uhost-c}`, the backend calls are exactly one release of
`backend-a` (the binding of `uhost-a`) and one allocation for
`uhost-c` — nothing for `uhost-b`. -/
theorem update_membership_diff_witness :
    ((cloud0.describeLoadBalancer envUpdate "lb-a").1 = .ok ulb0 ∧
      (cloud0.getUHostIDs envUpdate ["ip-b", "ip-c"]).1 = .ok ["uhost-b", "uhost-c"] ∧
      ulb0.VServerSet = vserver0 :: [] ∧
      (vserver0.VServerSet.map (fun b => b.ResourceID)).Nodup ∧
      (["uhost-b", "uhost-c"] : List String).Nodup) ∧
    ((cloud0.UpdateLoadBalancer envUpdate "lb-a" { Ports := [{ Port := 4000 }] }
        ["ip-b", "ip-c"]).1 = .ret none ∧
      (((cloud0.UpdateLoadBalancer envUpdate "lb-a" { Ports := [{ Port := 4000 }] }
          ["ip-b", "ip-c"]).2).filterMap backendCallId).Perm
        ((vserver0.VServerSet.filter
            (fun b => !(["uhost-b", "uhost-c"] : List String).contains b.ResourceID)).map
            (fun b => Sum.inl b.BackendID) ++
          ((["uhost-b", "uhost-c"] : List String).filter
            (fun h => !(vserver0.VServerSet.map (fun b => b.ResourceID)).contains h)).map
            Sum.inr)) ∧
    ((vserver0.VServerSet.filter
        (fun b => !(["uhost-b", "uhost-c"] : List String).contains b.ResourceID)).map
        (fun b => Sum.inl b.BackendID) ++
      ((["uhost-b", "uhost-c"] : List String).filter
        (fun h => !(vserver0.VServerSet.map (fun b => b.ResourceID)).contains h)).map
        Sum.inr) = [Sum.inl "backend-a", Sum.inr "uhost-c"] :=
  ⟨⟨rfl, rfl, rfl, by decide, by decide⟩,
    update_membership_diff cloud0 envUpdate "lb-a" { Ports := [{ Port := 4000 }] }
      ["ip-b", "ip-c"] ulb0 { Port := 4000 } [] vserver0 [] ["uhost-b", "uhost-c"]
      rfl rfl rfl rfl
      (fun _ => ⟨{ RetCode := 0 }, rfl, rfl⟩) (fun _ => ⟨{ RetCode := 0 }, rfl, rfl⟩)
      (by decide) (by decide),
    by decide⟩

end UCloud
